import Mathlib

/-!
Verification development for the InfraSnitch diagnostic tool
(src/infra_snitch: InfraMathDef.py, report_logger.py, db_connect.py, main.py).

The Python code is shallowly embedded as executable Lean definitions:

* SQL query results are rows modelled as association lists of column name
  to value, exactly as `query_dict` builds `dict(zip(columns, row))`.
* A Python value appearing in a row is `Val` (integer, string, or None).
* A check emits lines through `self.out`; we collect the emitted lines in
  order.  An exception escaping a piece of code is modelled by an
  `Option PyErr` component: `some e` means the exception `e` propagates
  uncaught out of that piece of code, and nothing after it runs.
* Data-access operations (cursor.execute / fetch) can fail; an `Env`
  record carries, for each query the program issues, either its result
  or the error it raises.  `query_dict` re-raises every error it catches
  (after logging), so it is the identity on such results.

The embedding follows the source line by line, including its actual
(broken) indentation; comments in the definitions record the control
flow of the corresponding Python.
-/

/-- A Python value stored in a result row: an int, a str, or None.
`is_online` comes back from the driver as a bool, but Python booleans
compare equal to the ints 0 and 1 (`True == 1`, `False == 0`), which is
exactly how the source uses them, so we model them as ints. -/
inductive Val where
  | vint (n : Int)
  | vstr (s : String)
  | vnone
  deriving DecidableEq

/-- Python exceptions that the embedded code can raise. -/
inductive PyErr where
  | keyError (k : String)
  | nameError (n : String)
  | typeError
  | dbError
  deriving DecidableEq

/-- A result row, as built by `query_dict`: `dict(zip(columns, row))`.
Keys are distinct because SQL column names in one result set are. -/
abbrev Row := List (String × Val)

/-- Lookup `row[k]`, returning `none` when the key is absent
(the call site decides whether that is a `KeyError`). -/
def rowGet (r : Row) (k : String) : Option Val :=
  match r with
  | [] => Option.none
  | (k2, v) :: rest => if k2 = k then some v else rowGet rest k

/-- Python `str(value)` as used inside f-strings. -/
def Val.pyStr : Val → String
  | .vint n => toString n
  | .vstr s => s
  | .vnone => "None"

/-- Python `repr(value)` as used when a value is displayed inside a list.
Strings are shown in quotes (written with an escape to keep the source
free of literal quote characters). -/
def Val.pyRepr : Val → String
  | .vint n => toString n
  | .vstr s => "\x27" ++ s ++ "\x27"
  | .vnone => "None"

/-- Python rendering of a list value inside an f-string, e.g. `[2, 5]`. -/
def pyListRepr (l : List Val) : String :=
  "[" ++ String.intercalate ", " (l.map Val.pyRepr) ++ "]"

/-- Python `str` of an optional value (`None` prints as `None`). -/
def pyStrOpt : Option Val → String
  | Option.none => "None"
  | some v => v.pyStr

/-- Boolean membership of a value in a list (Python `in` on a set of values). -/
def valMem (v : Val) : List Val → Bool
  | [] => false
  | w :: ws => if w = v then true else valMem v ws

/-- Python `set.add`: add a value if it is not already present. -/
def setAdd (l : List Val) (v : Val) : List Val :=
  if valMem v l then l else l ++ [v]

/-- Python `set(iterable)`: deduplicate a list of values.  Python sets are
unordered; every place the source observes an order it first applies
`sorted`, so a duplicate-free list is an adequate model. -/
def setOfVals (l : List Val) : List Val := l.foldl setAdd []

/-- Python set difference `a - b`. -/
def setMinus (a b : List Val) : List Val := a.filter (fun v => !(valMem v b))

/-- Python set equality (pure membership, order irrelevant). -/
def setEqVals (a b : List Val) : Bool :=
  a.all (fun v => valMem v b) && b.all (fun v => valMem v a)

/-- Total comparison used to model Python `sorted` on row values.  The
source only ever sorts lists of ints; the cross-constructor cases (where
Python would raise TypeError) are totalised arbitrarily. -/
def valLE : Val → Val → Bool
  | .vint a, .vint b => decide (a ≤ b)
  | .vint _, _ => true
  | .vstr _, .vint _ => false
  | .vstr a, .vstr b => decide (a ≤ b)
  | .vstr _, .vnone => true
  | .vnone, .vnone => true
  | .vnone, _ => false

/-- Insert a value into a `valLE`-sorted list. -/
def insertVal (v : Val) : List Val → List Val
  | [] => [v]
  | w :: ws => if valLE v w then v :: w :: ws else w :: insertVal v ws

/-- Python `sorted` on a list of row values (insertion sort). -/
def sortVals : List Val → List Val
  | [] => []
  | v :: vs => insertVal v (sortVals vs)

/-- Is the character list a prefix of the second list. -/
def isPreL : List Char → List Char → Bool
  | [], _ => true
  | _ :: _, [] => false
  | a :: as, b :: bs => if a = b then isPreL as bs else false

/-- Is the first character list an infix of the second. -/
def isInfL : List Char → List Char → Bool
  | n, [] => isPreL n []
  | n, c :: t => isPreL n (c :: t) || isInfL n t

/-- Python substring test `sub in s`. -/
def pyIn (sub s : String) : Bool := isInfL sub.data s.data

/-- Python `s.upper()` (the source only searches for the ASCII marker
VMXNET3 in the result, for which ASCII uppercasing is exact). -/
def strUpper (s : String) : String := String.mk (s.data.map Char.toUpper)

/-- Python slicing `s[:n]` (by characters). -/
def strTake (s : String) (n : Nat) : String := String.mk (s.data.take n)

/-- The line-boundary characters of Python `str.splitlines`: line feed,
carriage return, vertical tab (0x0b), form feed (0x0c), the separator
controls 0x1c-0x1e, next line 0x85, and the Unicode line separator
(0x2028) and paragraph separator (0x2029). -/
def isLineBreak (c : Char) : Bool :=
  c = '\n' || c = '\r' || c.val = 11 || c.val = 12 ||
  c.val = 28 || c.val = 29 || c.val = 30 || c.val = 133 ||
  c.val = 8232 || c.val = 8233

/-- Python `str.splitlines` on a character list: every `isLineBreak`
character ends a line, with the pair CR LF counting as a single
boundary; no trailing empty line, and an empty string yields the empty
list. -/
def splitlinesL : List Char → List (List Char)
  | [] => []
  | [c] => if isLineBreak c then [[]] else [[c]]
  | c1 :: c2 :: cs =>
    if c1 = '\r' ∧ c2 = '\n' then [] :: splitlinesL cs
    else if isLineBreak c1 then [] :: splitlinesL (c2 :: cs)
    else
      match splitlinesL (c2 :: cs) with
      | [] => [[c1]]
      | l :: ls => (c1 :: l) :: ls

/-- Python `s.splitlines()` on a string. -/
def pySplitlines (s : String) : List String :=
  (splitlinesL s.data).map String.mk

/-! ## Data sources

Underlying DMV tables and probe outputs.  A `Dm...Row` is a row of the
server-side view with the columns the SQL of the source touches; the query in
each accessor projects it to the `Row` (python dict) that `query_dict`
returns. -/

/-- A row of `sys.dm_os_schedulers`.  The view itself exposes
`parent_node_id`, but the query in `get_scheduler_layout` does not select
it. -/
structure DmSchedulersRow where
  scheduler_id : Int
  cpu_id : Int
  is_online : Int
  status : String
  parent_node_id : Int
  deriving DecidableEq

/-- A row of `sys.dm_os_memory_nodes`. -/
structure DmMemoryNodesRow where
  memory_node_id : Int
  virtual_address_space_reserved_kb : Int
  virtual_address_space_committed_kb : Int
  locked_page_allocations_kb : Int
  deriving DecidableEq

/-- The single row of `sys.dm_os_sys_info`. -/
structure DmSysInfoRow where
  cpu_count : Int
  hyperthread_ratio : Int
  physical_memory_kb : Int
  sqlserver_start_time : String
  virtual_machine_type_desc : String
  deriving DecidableEq

/-- A row of the active-requests query in `analyze_sql_workload`
(attribute access on a driver row, so no KeyError is possible). -/
structure RequestRow where
  session_id : Int
  status : String
  command : String
  cpu_time : Int
  total_elapsed_time : Int
  sql_text : String
  deriving DecidableEq

/-- A row of the memory-grants query in `analyze_sql_workload`. -/
structure GrantRow where
  session_id : Int
  requested_memory_kb : Int
  granted_memory_kb : Int
  deriving DecidableEq

/-- Insert a scheduler row into a list sorted by `scheduler_id`. -/
def insertSched (x : DmSchedulersRow) : List DmSchedulersRow → List DmSchedulersRow
  | [] => [x]
  | y :: ys => if x.scheduler_id ≤ y.scheduler_id then x :: y :: ys else y :: insertSched x ys

/-- Model of `ORDER BY scheduler_id` (insertion sort, a stable model of the
server-side ordering). -/
def sortSchedRows : List DmSchedulersRow → List DmSchedulersRow
  | [] => []
  | x :: xs => insertSched x (sortSchedRows xs)

/-- The projection performed by the SELECT list of `get_scheduler_layout`:
`SELECT scheduler_id, cpu_id, is_online, status`.  The resulting dict has
exactly these four keys; `parent_node_id` is dropped. -/
def schedRowProj (r : DmSchedulersRow) : Row :=
  [("scheduler_id", Val.vint r.scheduler_id),
   ("cpu_id", Val.vint r.cpu_id),
   ("is_online", Val.vint r.is_online),
   ("status", Val.vstr r.status)]

/-- Result rows of the query in `get_scheduler_layout`:
filter `scheduler_id < 255`, order by `scheduler_id`, project four columns. -/
def scheduler_layout_rows (db : List DmSchedulersRow) : List Row :=
  (sortSchedRows (db.filter (fun r => decide (r.scheduler_id < 255)))).map schedRowProj

/-- The projection performed by the SELECT list of `get_memory_nodes`. -/
def memNodeRowProj (r : DmMemoryNodesRow) : Row :=
  [("memory_node_id", Val.vint r.memory_node_id),
   ("virtual_address_space_reserved_kb", Val.vint r.virtual_address_space_reserved_kb),
   ("virtual_address_space_committed_kb", Val.vint r.virtual_address_space_committed_kb),
   ("locked_page_allocations_kb", Val.vint r.locked_page_allocations_kb)]

/-- Result rows of the query in `get_memory_nodes`:
filter `memory_node_id != 64`, project four columns (no ORDER BY). -/
def memory_nodes_rows (db : List DmMemoryNodesRow) : List Row :=
  (db.filter (fun r => decide (r.memory_node_id ≠ 64))).map memNodeRowProj

/-- The projection performed by the SELECT list of `get_system_specs`,
including the computed column `physical_memory_kb / 1024 AS
physical_memory_mb` (SQL integer division truncates toward zero). -/
def sysInfoRowProj (r : DmSysInfoRow) : Row :=
  [("cpu_count", Val.vint r.cpu_count),
   ("hyperthread_ratio", Val.vint r.hyperthread_ratio),
   ("physical_memory_mb", Val.vint (Int.tdiv r.physical_memory_kb 1024)),
   ("sqlserver_start_time", Val.vstr r.sqlserver_start_time),
   ("virtual_machine_type_desc", Val.vstr r.virtual_machine_type_desc)]

/-- Result rows of the query in `get_system_specs`. -/
def sys_info_rows (db : List DmSysInfoRow) : List Row := db.map sysInfoRowProj

/-- The external world of one diagnostic run: for every query the program
issues, its result or the data-access error it raises, plus the raw text
of each OS probe (`subprocess.getoutput` returns text and does not
raise).  Cursor creation is assumed to succeed; failures are modelled at
execute/fetch, which is where pyodbc raises. -/
structure Env where
  schedDb : Except PyErr (List DmSchedulersRow)
  memNodesDb : Except PyErr (List DmMemoryNodesRow)
  sysInfoDb : Except PyErr (List DmSysInfoRow)
  maxdopFetch : Except PyErr (Option Val)
  memSetup : Except PyErr Unit
  memMinFetch : Except PyErr (Option Val)
  memMaxFetch : Except PyErr (Option Val)
  memSysFetch : Except PyErr (Option (Int × Int))
  requestsFetch : Except PyErr (List RequestRow)
  grantsFetch : Except PyErr (List GrantRow)
  systeminfoText : String
  wmicCpuText : String
  wmicDiskText : String
  wmicNicText : String

/-- What one check contributes to the run: the lines it emitted through
`self.out`, in order, and the exception (if any) that escaped it. -/
structure CheckOut where
  lines : List String
  err : Option PyErr
  deriving DecidableEq

/-- Sequencing of two code pieces: if the first raised, the second never
runs (there is no try/except in `run_all_diagnostics`). -/
def CheckOut.andThen (a b : CheckOut) : CheckOut :=
  match a.err with
  | some _ => a
  | Option.none => ⟨a.lines ++ b.lines, b.err⟩

/-- Method `NumaChecker.query_dict`: executes the query and builds the dicts;
both except branches log and then `raise`, so the caller sees exactly the
result or the original exception. -/
def query_dict (result : Except PyErr (List Row)) : Except PyErr (List Row) := result

/-- Method `NumaChecker.get_scheduler_layout`. -/
def get_scheduler_layout (env : Env) : Except PyErr (List Row) :=
  query_dict (match env.schedDb with
    | .error e => .error e
    | .ok db => .ok (scheduler_layout_rows db))

/-- Method `NumaChecker.get_memory_nodes`. -/
def get_memory_nodes (env : Env) : Except PyErr (List Row) :=
  query_dict (match env.memNodesDb with
    | .error e => .error e
    | .ok db => .ok (memory_nodes_rows db))

/-! ## Validation checks (NumaChecker methods) -/

/-- The loop of `validate_numa_layout` (lines 103-105): each iteration
rebinds `cpu = row[\x27cpu_id\x27]` and `is_online = row[\x27is_online\x27]`
(KeyError propagates at the first row missing a key), so after the loop
only the values of the LAST row remain bound; with no rows the names stay
unbound. -/
def lastCpuOnline : List Row → Except PyErr (Option (Val × Val))
  | [] => .ok Option.none
  | r :: rs =>
    match rowGet r "cpu_id" with
    | Option.none => .error (PyErr.keyError "cpu_id")
    | some c =>
      match rowGet r "is_online" with
      | Option.none => .error (PyErr.keyError "is_online")
      | some o =>
        match lastCpuOnline rs with
        | .error e => .error e
        | .ok Option.none => .ok (some (c, o))
        | .ok (some p) => .ok (some p)

/-- Method `NumaChecker.validate_numa_layout`, after the scheduler fetch.
Control flow of the source (lines 97-123):
* `node_cpu_map` is created empty and NEVER written (the accumulation the
  docstring describes does not exist in the loop body), so
  `cpu_counts = set(node_cpu_map.values())` is always empty and the
  balanced branch is always taken;
* the test `if is_online == 0` (line 106) is OUTSIDE the for loop, so it
  sees only the bindings of the last row, and raises NameError when there are
  no rows at all (nothing has been emitted at that point). -/
def validate_numa_layout_rows (schedulers : List Row) : CheckOut :=
  match lastCpuOnline schedulers with
  | .error e => ⟨[], some e⟩
  | .ok Option.none => ⟨[], some (PyErr.nameError "is_online")⟩
  | .ok (some (cpu, is_online)) =>
    let offline_schedulers : List Val := if is_online = Val.vint 0 then [cpu] else []
    let balanceLines := ["✅ NUMA CPU distribution appears balanced."]
    let offlineLines :=
      if offline_schedulers = [] then ["✅ All schedulers are online."]
      else ["⚠️ Offline schedulers detected: " ++ pyListRepr offline_schedulers]
    ⟨balanceLines ++ offlineLines, Option.none⟩

/-- Method `NumaChecker.validate_numa_layout` including its own data fetch
(no try/except around `get_scheduler_layout`: an error propagates). -/
def validate_numa_layout (env : Env) : CheckOut :=
  match get_scheduler_layout env with
  | .error e => ⟨[], some e⟩
  | .ok rows => validate_numa_layout_rows rows

/-- Evaluation of `row[\x27memory_node_id\x27]` over all memory-node rows, as the
generator expression on line 137 evaluates it (KeyError at the first row
missing the key). -/
def memoryNodeIdsOf : List Row → Except PyErr (List Val)
  | [] => .ok []
  | r :: rs =>
    match rowGet r "memory_node_id" with
    | Option.none => .error (PyErr.keyError "memory_node_id")
    | some v =>
      match memoryNodeIdsOf rs with
      | .error e => .error e
      | .ok vs => .ok (v :: vs)

/-- Method `NumaChecker.validate_memory_alignment`, after the two fetches.
Control flow of the source (lines 132-159), whose indentation is broken:
* lines 134-141 are the body of `for row in schedulers`; the `return` on
  line 141 is at loop-body level, so the FIRST iteration always returns;
* if the first row has `parent_node_id`, the node id is added, line 137
  assigns `memory_node_ids` (evaluating the generator over all memory
  rows), the emptiness test on line 139 is false, and the function
  returns having emitted NOTHING;
* if the first row lacks the key, lines 135-137 are skipped,
  `scheduler_node_ids` is still empty, the warn on line 140 is emitted,
  and the function returns;
* with no scheduler rows the loop never runs and line 143 evaluates
  `scheduler_node_ids - memory_node_ids` where `memory_node_ids` was
  never assigned: NameError, before any line is emitted.  Lines 143-159
  (the set differences and their ok/warn reporting) are therefore dead
  code: no input reaches them past the NameError. -/
def validate_memory_alignment_rows (schedulers memory_nodes : List Row) : CheckOut :=
  match schedulers with
  | [] => ⟨[], some (PyErr.nameError "memory_node_ids")⟩
  | r :: _ =>
    match rowGet r "parent_node_id" with
    | some _ =>
      match memoryNodeIdsOf memory_nodes with
      | .error e => ⟨[], some e⟩
      | .ok _ => ⟨[], Option.none⟩
    | Option.none =>
      ⟨["⚠️ NUMA layout cannot be fully validated (parent_node_id missing)."], Option.none⟩

/-- Method `NumaChecker.validate_memory_alignment` including its own fetches
(lines 128-129, no try/except: a data-access error propagates). -/
def validate_memory_alignment (env : Env) : CheckOut :=
  match get_scheduler_layout env with
  | .error e => ⟨[], some e⟩
  | .ok schedulers =>
    match get_memory_nodes env with
    | .error e => ⟨[], some e⟩
    | .ok memory_nodes => validate_memory_alignment_rows schedulers memory_nodes

/-- The set `scheduler_node_ids` as the loop of `validate_memory_alignment` would
accumulate it over all rows: the `parent_node_id` of every row exposing
that key. -/
def collectSchedNodeIds (schedulers : List Row) : List Val :=
  schedulers.filterMap (fun r => rowGet r "parent_node_id")

/-- Line 187 of `recommend_maxdop`: `schedulers and \x27parent_node_id\x27
in schedulers[0]` - nonempty and the FIRST row has the key. -/
def maxdopUsesPnid (schedulers : List Row) : Bool :=
  match schedulers with
  | [] => false
  | r :: _ => (rowGet r "parent_node_id").isSome

/-- The number of distinct `parent_node_id` values among rows exposing
the key (line 188 builds this set; only its size is used). -/
def distinctPnidCount (schedulers : List Row) : Nat :=
  (setOfVals (collectSchedNodeIds schedulers)).length

/-- The value `node_count` as computed on lines 187-191: the distinct count when the
first row exposes `parent_node_id`, else the fallback value 1. -/
def maxdopNodeCount (schedulers : List Row) : Nat :=
  if maxdopUsesPnid schedulers then distinctPnidCount schedulers else 1

/-- The recommendation of lines 195-200: 8 for a single node, else
`node_count * 2`. -/
def maxdopRecommended (schedulers : List Row) : Nat :=
  if maxdopNodeCount schedulers = 1 then 8 else maxdopNodeCount schedulers * 2

/-- The reason text of lines 195-200. -/
def maxdopReason (schedulers : List Row) : String :=
  if maxdopNodeCount schedulers = 1 then "Single NUMA node - general best practice"
  else toString (maxdopNodeCount schedulers) ++ " NUMA nodes detected - scaling maxDOP accordingly"

/-- Lines emitted by `recommend_maxdop` from line 186 on, given the
current value obtained by the try block and the fetched scheduler rows:
the fallback warning when `parent_node_id` is unavailable, then always
the three lines stating current value, recommendation and reason. -/
def recommend_maxdop_lines (current_value : Option Val) (schedulers : List Row) : List String :=
  (if maxdopUsesPnid schedulers then []
   else ["⚠️ Falling back to 1 NUMA node (parent_node_id unavailable)"]) ++
  ["🧠 Current maxDOP: " ++ pyStrOpt current_value,
   "✅ Recommended maxDOP: " ++ toString (maxdopRecommended schedulers),
   "📌 Reason: " ++ maxdopReason schedulers]

/-- Method `NumaChecker.recommend_maxdop`.  The try block (lines 166-182) covers
only the sp_configure fetch of the current value: on failure it emits the
error line and leaves `current_value = None`.  The scheduler fetch on
line 185 is OUTSIDE the try, so a data-access error there propagates
(after the error line, if any, was already emitted). -/
def recommend_maxdop (env : Env) : CheckOut :=
  let fetched : List String × Option Val :=
    match env.maxdopFetch with
    | .error _ => (["❌ Unable to retrieve current maxDOP."], Option.none)
    | .ok v => ([], v)
  match get_scheduler_layout env with
  | .error e => ⟨fetched.1, some e⟩
  | .ok schedulers => ⟨fetched.1 ++ recommend_maxdop_lines fetched.2 schedulers, Option.none⟩

/-- Helper for the fetched values `row[1] if row else None`. -/
def fetchedVal : Option Val → Val
  | Option.none => Val.vnone
  | some v => v

/-- Method `NumaChecker.get_memory_config` (lines 206-241).  The try block
fetches, in order: the sp_configure preamble, min server memory, max
server memory, and the physical-memory row.  On any exception the except
branch emits the error line and returns the dict built SO FAR (possibly
partial).  A physical-memory query returning no row adds no keys and is
not an error.  Returns (emitted lines, dict). -/
def get_memory_config (env : Env) : List String × Row :=
  match env.memSetup with
  | .error _ => (["❌ Unable to retrieve memory configuration."], [])
  | .ok _ =>
    match env.memMinFetch with
    | .error _ => (["❌ Unable to retrieve memory configuration."], [])
    | .ok minRow =>
      let d1 : Row := [("min_server_memory_mb", fetchedVal minRow)]
      match env.memMaxFetch with
      | .error _ => (["❌ Unable to retrieve memory configuration."], d1)
      | .ok maxRow =>
        let d2 : Row := d1 ++ [("max_server_memory_mb", fetchedVal maxRow)]
        match env.memSysFetch with
        | .error _ => (["❌ Unable to retrieve memory configuration."], d2)
        | .ok Option.none => ([], d2)
        | .ok (some (t, a)) =>
          ([], d2 ++ [("total_physical_memory_mb", Val.vint (Int.tdiv t 1024)),
                      ("available_physical_memory_mb", Val.vint (Int.tdiv a 1024))])

/-- Python comparison `a > b` on row values: defined for two ints,
TypeError otherwise (in particular when a value is None). -/
def valGtE : Val → Val → Except PyErr Bool
  | .vint a, .vint b => .ok (decide (b < a))
  | _, _ => .error PyErr.typeError

/-- Python comparison `a < b * 0.25` on row values.  For ints this is
exactly `4 * a < b`: multiplying an int by the float 0.25 is exact
division by 4 for every magnitude the model cares about. -/
def valLtQuarterE : Val → Val → Except PyErr Bool
  | .vint a, .vint b => .ok (decide (4 * a < b))
  | _, _ => .error PyErr.typeError

/-- Method `NumaChecker.validate_memory_config` (lines 246-270):
`if not mem: return` only guards the EMPTY dict; with a partial dict the
detail f-strings on lines 253-256 hit the first absent key and the
KeyError propagates uncaught (lines emitted so far stand).  With all four
keys present the two rules are applied independently; comparing a None
value would raise TypeError. -/
def validate_memory_config (env : Env) : CheckOut :=
  let fetched := get_memory_config env
  let pre := fetched.1
  let mem := fetched.2
  if mem = [] then ⟨pre, Option.none⟩
  else
    let hdr := "\n🔍 SQL Server Memory Configuration:"
    match rowGet mem "total_physical_memory_mb" with
    | Option.none => ⟨pre ++ [hdr], some (PyErr.keyError "total_physical_memory_mb")⟩
    | some total =>
      let l1 := " - Total Physical RAM: " ++ total.pyStr ++ " MB"
      match rowGet mem "available_physical_memory_mb" with
      | Option.none => ⟨pre ++ [hdr, l1], some (PyErr.keyError "available_physical_memory_mb")⟩
      | some avail =>
        let l2 := " - Available RAM: " ++ avail.pyStr ++ " MB"
        match rowGet mem "min_server_memory_mb" with
        | Option.none => ⟨pre ++ [hdr, l1, l2], some (PyErr.keyError "min_server_memory_mb")⟩
        | some min_mem =>
          let l3 := " - SQL Min Memory: " ++ min_mem.pyStr ++ " MB"
          match rowGet mem "max_server_memory_mb" with
          | Option.none => ⟨pre ++ [hdr, l1, l2, l3], some (PyErr.keyError "max_server_memory_mb")⟩
          | some max_mem =>
            let l4 := " - SQL Max Memory: " ++ max_mem.pyStr ++ " MB"
            match valGtE max_mem total with
            | .error e => ⟨pre ++ [hdr, l1, l2, l3, l4], some e⟩
            | .ok gt =>
              let l5 := if gt then "⚠️ SQL Max Memory exceeds physical RAM. Risk of OS starvation."
                        else "✅ SQL Max Memory fits within physical RAM."
              match valLtQuarterE min_mem max_mem with
              | .error e => ⟨pre ++ [hdr, l1, l2, l3, l4, l5], some e⟩
              | .ok lt =>
                let l6 := if lt then "⚠️ SQL Min Memory is set very low compared to Max. Could delay memory ramp-up."
                          else "✅ SQL Min/Max memory ratio looks reasonable."
                ⟨pre ++ [hdr, l1, l2, l3, l4, l5, l6], Option.none⟩

/-- Filter rows whose value at key `k` satisfies `p`, raising KeyError at
the first row missing `k` (the list comprehensions on lines 279-280). -/
def filterKeyed (k : String) (p : Val → Bool) : List Row → Except PyErr (List Row)
  | [] => .ok []
  | r :: rs =>
    match rowGet r k with
    | Option.none => .error (PyErr.keyError k)
    | some v =>
      match filterKeyed k p rs with
      | .error e => .error e
      | .ok l => .ok (if p v then r :: l else l)

/-- Collect `r[k]` over rows, raising KeyError at the first row missing
`k` (the generator expressions on lines 282-283). -/
def collectKeyed (k : String) : List Row → Except PyErr (List Val)
  | [] => .ok []
  | r :: rs =>
    match rowGet r k with
    | Option.none => .error (PyErr.keyError k)
    | some v =>
      match collectKeyed k rs with
      | .error e => .error e
      | .ok l => .ok (v :: l)

/-- Lines emitted by `NumaChecker.check_affinity_config` (lines 272-294):
any failure (data access or KeyError) becomes the single error line. -/
def check_affinity_config_lines (env : Env) : List String :=
  let failLine := ["❌ Error checking affinity config."]
  match get_scheduler_layout env with
  | .error _ => failLine
  | .ok schedulers =>
    match filterKeyed "status" (fun v => v = Val.vstr "VISIBLE ONLINE") schedulers with
    | .error _ => failLine
    | .ok total_visible =>
      match filterKeyed "is_online" (fun v => v = Val.vint 1) schedulers with
      | .error _ => failLine
      | .ok all_online =>
        match collectKeyed "cpu_id" total_visible with
        | .error _ => failLine
        | .ok visVals =>
          match collectKeyed "cpu_id" all_online with
          | .error _ => failLine
          | .ok onVals =>
            let total_visible_cpu_ids := setOfVals visVals
            let total_online_cpu_ids := setOfVals onVals
            if setEqVals total_visible_cpu_ids total_online_cpu_ids then
              ["✅ No CPU affinity mask detected. SQL sees all online CPUs."]
            else
              let diff := setMinus total_online_cpu_ids total_visible_cpu_ids
              ["⚠️ Affinity mask is likely applied. Some CPUs are online but not visible to SQL Server:",
               "   Missing CPUs: " ++ pyListRepr (sortVals diff)]

/-- Method `NumaChecker.check_affinity_config`: the whole body is inside
try/except, so no exception propagates out of it. -/
def check_affinity_config (env : Env) : CheckOut :=
  ⟨check_affinity_config_lines env, Option.none⟩

/-- Lines emitted by `NumaChecker.get_system_specs` (lines 384-409): the
try/except catches both the data-access failure and any KeyError in the
detail f-strings (emitting the error line AFTER whatever detail lines
were already out). -/
def get_system_specs_lines (env : Env) : List String :=
  let caught := "❌ Error retrieving system hardware configuration."
  match env.sysInfoDb with
  | .error _ => [caught]
  | .ok db =>
    match sys_info_rows db with
    | [] => ["❌ Could not retrieve system specs."]
    | row :: _ =>
      let hdr := "\n🖥️ Server CPU & Memory Specs:"
      match rowGet row "cpu_count" with
      | Option.none => [hdr, caught]
      | some v1 =>
        let l1 := " - Logical CPUs: " ++ v1.pyStr
        match rowGet row "hyperthread_ratio" with
        | Option.none => [hdr, l1, caught]
        | some v2 =>
          let l2 := " - Hyperthread Ratio: " ++ v2.pyStr
          match rowGet row "physical_memory_mb" with
          | Option.none => [hdr, l1, l2, caught]
          | some v3 =>
            let l3 := " - Physical Memory: " ++ v3.pyStr ++ " MB"
            match rowGet row "sqlserver_start_time" with
            | Option.none => [hdr, l1, l2, l3, caught]
            | some v4 =>
              let l4 := " - SQL Server Start Time: " ++ v4.pyStr
              match rowGet row "virtual_machine_type_desc" with
              | Option.none => [hdr, l1, l2, l3, l4, caught]
              | some v5 =>
                [hdr, l1, l2, l3, l4, " - Virtual Machine Type: " ++ v5.pyStr]

/-- Method `NumaChecker.get_system_specs`: no exception escapes its
try/except. -/
def get_system_specs (env : Env) : CheckOut :=
  ⟨get_system_specs_lines env, Option.none⟩

/-- The classification chain of `detect_virtual_environment`
(lines 359-369): `detected` starts as Bare Metal and the first matching
substring test wins, in source order. -/
def classifyVirtualization (output : String) : String :=
  if pyIn "VMware" output then "VMware"
  else if pyIn "Hyper-V" output || pyIn "Virtual Machine" output then "Hyper-V"
  else if pyIn "KVM" output || pyIn "QEMU" output then "KVM/QEMU"
  else if pyIn "Microsoft Corporation Virtual" output then "Azure (Hyper-V core)"
  else "Bare Metal"

/-- Method `NumaChecker.detect_virtual_environment` (lines 353-382):
`subprocess.getoutput` returns text without raising, so the except branch
is never taken in the model; any non-bare-metal result adds the two
vNUMA advisory lines after the warning. -/
def detect_virtual_environment (env : Env) : CheckOut :=
  let detected := classifyVirtualization env.systeminfoText
  ⟨["\n🧭 Host Environment: " ++ detected] ++
    (if detected ≠ "Bare Metal" then
      ["⚠️ Detected virtualized SQL Server environment.",
       "📌 Ensure vNUMA is exposed and balanced properly in the hypervisor.",
       "📌 Misaligned virtual sockets/cores can cause NUMA fragmentation."]
     else []), Option.none⟩

/-- Python regex whitespace class `\s` (ASCII part, which is all wmic
output contains). -/
def isPySpace (c : Char) : Bool :=
  c = ' ' || c = '\t' || c = '\n' || c = '\r' || c.val = 11 || c.val = 12

/-- Python decimal digit test `\d`. -/
def isPyDigit (c : Char) : Bool := decide ('0' ≤ c) && decide (c ≤ '9')

/-- Fuel-driven scanner for `re.findall(lit ++ "(" ++ class ++ "+)", text)`
where the literal is plain text and the captured class is `good`:
non-overlapping left-to-right matches, each capture the longest nonempty
run of `good` characters after the literal.  Fuel at least the text
length makes the scan total; structural recursion on the fuel keeps the
definition kernel-reducible. -/
def findallAux (lit : List Char) (good : Char → Bool) : Nat → List Char → List (List Char)
  | 0, _ => []
  | _ + 1, [] => []
  | fuel + 1, c :: cs =>
    if isPreL lit (c :: cs) then
      let rest := (c :: cs).drop lit.length
      let tok := rest.takeWhile good
      if tok = [] then findallAux lit good fuel cs
      else tok :: findallAux lit good fuel (rest.drop tok.length)
    else findallAux lit good fuel cs

/-- Find all `lit(class+)` captures in a string. -/
def findallCaptures (lit : String) (good : Char → Bool) (text : String) : List String :=
  (findallAux lit.data good text.data.length text.data).map String.mk

/-- Parse a nonempty digit string as a Nat (Python `int`). -/
def parseDigits (s : String) : Nat :=
  s.data.foldl (fun n c => 10 * n + (c.toNat - 48)) 0

/-- Method `NumaChecker.check_socket_layout` (lines 411-442): header,
then three counts parsed from the wmic text with `re.findall`
(`SocketDesignation=(\S+)` deduplicated, `NumberOfCores=(\d+)` and
`NumberOfLogicalProcessors=(\d+)` summed), then the per-edition verdict.
Parsing cannot raise, so the except branch is never taken. -/
def check_socket_layout (env : Env) : CheckOut :=
  let output := env.wmicCpuText
  let socket_matches := findallCaptures "SocketDesignation=" (fun c => !(isPySpace c)) output
  let socket_count := socket_matches.dedup.length
  let total_cores := ((findallCaptures "NumberOfCores=" isPyDigit output).map parseDigits).sum
  let total_logical := ((findallCaptures "NumberOfLogicalProcessors=" isPyDigit output).map parseDigits).sum
  ⟨["\n🧩 CPU Socket Layout (Host OS View):",
    " - Sockets: " ++ toString socket_count,
    " - Physical Cores: " ++ toString total_cores,
    " - Logical Processors: " ++ toString total_logical] ++
   (if 2 < socket_count then
      ["⚠️ Detected more than 2 sockets.",
       "❌ SQL Server Standard will only use 2 sockets regardless of core count.",
       "📌 Recommendation: Reconfigure VM to use fewer sockets with more cores per socket (e.g., 1 socket × 8 cores)."]
    else ["✅ Socket count is within SQL Server Standard Edition limits."]), Option.none⟩

/-- Method `NumaChecker.check_virtual_hardware` (lines 445-470): the first
header is emitted before the try; both probes return text, each marker
absence emits the warning followed by the raw probe output. -/
def check_virtual_hardware (env : Env) : CheckOut :=
  ⟨["\n💽 VM Hardware Configuration Check:", "🔍 Disk Controllers:"] ++
   (if pyIn "SCSI" env.wmicDiskText then ["✅ Disks are using SCSI interface."]
    else ["⚠️ Disks may not be using SCSI interface:", env.wmicDiskText]) ++
   ["\n🔍 Network Adapters:"] ++
   (if pyIn "VMXNET3" (strUpper env.wmicNicText) then ["✅ VMXNET3 network adapter detected."]
    else ["⚠️ VMXNET3 not detected. Current adapters:", env.wmicNicText]), Option.none⟩

/-- Lines emitted by `NumaChecker.analyze_sql_workload` with the default
`top_n = 5` (lines 296-349): any data-access failure becomes the single
error line after whatever was already emitted. -/
def analyze_sql_workload_lines (env : Env) : List String :=
  let failLine := "❌ Error analyzing SQL workload."
  let hdr := "\n🔍 Active SQL Requests (top 5):"
  match env.requestsFetch with
  | .error _ => [hdr, failLine]
  | .ok reqs =>
    let rows := reqs.take 5
    let reqLines :=
      if rows = [] then ["✅ No active long-running queries."]
      else (rows.map (fun r =>
        ["\n🧵 Session " ++ toString r.session_id,
         " - Status: " ++ r.status,
         " - Command: " ++ r.command,
         " - CPU Time: " ++ toString r.cpu_time ++ " ms",
         " - Elapsed Time: " ++ toString r.total_elapsed_time ++ " ms",
         " - SQL: " ++ strTake r.sql_text 150 ++ "..."])).flatten
    let grantHdr := "\n💾 Memory Grants (if any):"
    match env.grantsFetch with
    | .error _ => [hdr] ++ reqLines ++ [grantHdr, failLine]
    | .ok grants =>
      let grantLines :=
        if grants = [] then ["✅ No memory grant pressure detected."]
        else grants.map (fun g =>
          " - Session " ++ toString g.session_id ++ " waiting for memory: " ++
          toString g.requested_memory_kb ++ " KB requested")
      [hdr] ++ reqLines ++ [grantHdr] ++ grantLines

/-- Method `NumaChecker.analyze_sql_workload`: the whole body is inside
try/except, so no exception propagates out of it. -/
def analyze_sql_workload (env : Env) : CheckOut :=
  ⟨analyze_sql_workload_lines env, Option.none⟩

/-- The banner of `run_all_diagnostics`: one message containing an
embedded newline and fifty dashes. -/
def runAllHeader : String :=
  "\n🔧 Running Full SQL Server + VM Diagnostics\n" ++ String.mk (List.replicate 50 '-')

/-- Method `NumaChecker.run_all_diagnostics` (lines 473-489): the eleven
checks in source order (system specs runs twice), with no try/except of
its own - the first exception escaping a check aborts the rest of the
run, including the closing line. -/
def run_all_diagnostics (env : Env) : CheckOut :=
  ((((((((((((⟨[runAllHeader], Option.none⟩ : CheckOut).andThen
    (get_system_specs env)).andThen
    (validate_numa_layout env)).andThen
    (validate_memory_alignment env)).andThen
    (recommend_maxdop env)).andThen
    (validate_memory_config env)).andThen
    (check_affinity_config env)).andThen
    (get_system_specs env)).andThen
    (check_socket_layout env)).andThen
    (detect_virtual_environment env)).andThen
    (check_virtual_hardware env)).andThen
    (analyze_sql_workload env)).andThen
    ⟨["\n✅ Diagnostics complete."], Option.none⟩

/-! ## Report aggregator (report_logger.py) -/

/-- The state of `ReportLogger`: the `StringIO` buffer.  The console
side of `write` and the file writes of the export methods are sinks with
no further behaviour. -/
structure ReportLogger where
  buffer : String
  deriving DecidableEq

/-- Method `ReportLogger.write` (the record operation): forwards the
message to the console and appends `msg + "\n"` to the buffer. -/
def ReportLogger.write (st : ReportLogger) (msg : String) : ReportLogger :=
  ⟨st.buffer ++ msg ++ "\n"⟩

/-- A fresh logger fed every message of the list, in order. -/
def recordAll (msgs : List String) : ReportLogger :=
  msgs.foldl ReportLogger.write ⟨""⟩

/-- Method `ReportLogger.export` (text export): writes
`buffer.getvalue()` verbatim. -/
def export_text (st : ReportLogger) : String := st.buffer

/-- Method `ReportLogger.export_json`: the structured document is
`{"report": lines}` with `lines = buffer.getvalue().splitlines()`; the
JSON encode/decode pair is faithful on a list of strings, so the
round-tripped content is exactly this line list. -/
def export_json_report (st : ReportLogger) : List String :=
  pySplitlines st.buffer

/-- Method `ReportLogger.print_summary` (lines 26-38): one pass over
`buffer.getvalue().splitlines()`; warnings are lines containing either
failure marker, successes are lines containing the success marker, the
two filters run independently; the first five warnings (in log order)
are highlighted.  The method only reads the buffer, which the returned
state records.  Result: ((successes, warnings, highlighted), state). -/
def print_summary (st : ReportLogger) : (Nat × Nat × List String) × ReportLogger :=
  let lines := pySplitlines st.buffer
  let warnings := lines.filter (fun l => pyIn "⚠️" l || pyIn "❌" l)
  let successes := lines.filter (fun l => pyIn "✅" l)
  ((successes.length, warnings.length, warnings.take 5), st)

/-! ## Claim-side comparison definitions and concrete inputs

The `...Spec`/`...claim` definitions below follow the WORDS of the spec
and of the claims (not the source); they exist only to be compared with
the embedded code. -/

/-- The memory-alignment check as the spec states it (spec 4.1, claim C2):
empty scheduler-node set gives the single warn and stops; otherwise both
set differences are evaluated and reported independently, warn with the
sorted offending nodes when non-empty, ok when empty. -/
def memAlignmentSpecLines (schedulers memory_nodes : List Row) : List String :=
  let scheduler_node_ids := setOfVals (collectSchedNodeIds schedulers)
  let memory_node_ids := setOfVals (memory_nodes.filterMap (fun r => rowGet r "memory_node_id"))
  if scheduler_node_ids = [] then
    ["⚠️ NUMA layout cannot be fully validated (parent_node_id missing)."]
  else
    let nodes_missing_memory := setMinus scheduler_node_ids memory_node_ids
    let memory_without_cpus := setMinus memory_node_ids scheduler_node_ids
    (if nodes_missing_memory ≠ [] then
       "⚠️ NUMA nodes with schedulers but no memory assigned:" ::
         (sortVals nodes_missing_memory).map (fun v => " - Node " ++ v.pyStr)
     else ["✅ All scheduler nodes have memory assigned."]) ++
    (if memory_without_cpus ≠ [] then
       "⚠️ Memory nodes present without schedulers:" ::
         (sortVals memory_without_cpus).map (fun v => " - Node " ++ v.pyStr)
     else ["✅ All memory nodes align with scheduler nodes."])

/-- The offline half of claim C3, instantiated at a record set: the check
emits the offline warning if and only if at least one scheduler record is
offline. -/
def offlineClaimAt (schedulers : List Row) : Prop :=
  ((validate_numa_layout_rows schedulers).lines.any
      (fun l => isPreL "⚠️ Offline schedulers detected:".data l.data) = true) ↔
    ∃ r ∈ schedulers, rowGet r "is_online" = some (Val.vint 0)

/-- Does a fetched memory configuration carry all four required keys. -/
def memCfgHasAllKeys (mem : Row) : Bool :=
  (rowGet mem "total_physical_memory_mb").isSome &&
  (rowGet mem "available_physical_memory_mb").isSome &&
  (rowGet mem "min_server_memory_mb").isSome &&
  (rowGet mem "max_server_memory_mb").isSome

/-- Claim C6 instantiated at an environment: if any of the four values is
absent from the fetched configuration, the validation emits an
error-level line and stops - in particular no exception escapes it. -/
def memConfigClaimAt (env : Env) : Prop :=
  memCfgHasAllKeys (get_memory_config env).2 = false →
    (validate_memory_config env).err = Option.none ∧
    (validate_memory_config env).lines.any (fun l => pyIn "❌" l) = true

/-- A benign environment: every query succeeds, one scheduler, sensible
memory numbers, empty workload, empty probe texts. -/
def benignEnv : Env :=
  { schedDb := .ok [⟨0, 0, 1, "VISIBLE ONLINE", 0⟩]
    memNodesDb := .ok []
    sysInfoDb := .ok [⟨8, 2, 16777216, "2023-10-01 00:00:00", "NONE"⟩]
    maxdopFetch := .ok (some (Val.vint 4))
    memSetup := .ok ()
    memMinFetch := .ok (some (Val.vint 100))
    memMaxFetch := .ok (some (Val.vint 1024))
    memSysFetch := .ok (some (2048000, 1024000))
    requestsFetch := .ok []
    grantsFetch := .ok []
    systeminfoText := ""
    wmicCpuText := ""
    wmicDiskText := ""
    wmicNicText := "" }

/-- An environment whose scheduler-layout query raises a data-access
error; everything else is benign. -/
def envSchedFail : Env := { benignEnv with schedDb := .error PyErr.dbError }

/-- An environment where only the system-specs and active-requests
queries fail; the checks that wrap their access in try/except catch
these. -/
def envCaughtFail : Env :=
  { benignEnv with sysInfoDb := .error PyErr.dbError, requestsFetch := .error PyErr.dbError }

/-- An environment whose memory-configuration fetch fails midway: min and
max server memory are stored, then the physical-memory query raises, so
the returned dict is partial. -/
def envMemPartial : Env := { benignEnv with memSysFetch := .error PyErr.dbError }

/-- An environment whose scheduler-layout query succeeds with zero rows. -/
def envSchedEmpty : Env := { benignEnv with schedDb := .ok [] }

/-- C2/C10 concrete input: a single scheduler record that exposes
`parent_node_id`. -/
def schedRowsPnid : List Row := [[("parent_node_id", Val.vint 0)]]

/-- C3 concrete input: an offline scheduler followed by an online one
(the offline record is not last). -/
def schedRowsOfflineFirst : List Row :=
  [[("cpu_id", Val.vint 0), ("is_online", Val.vint 0)],
   [("cpu_id", Val.vint 1), ("is_online", Val.vint 1)]]

/-- C4 witness input: two scheduler records exposing two distinct parent
nodes. -/
def schedRowsTwoNodes : List Row :=
  [[("cpu_id", Val.vint 0), ("parent_node_id", Val.vint 0)],
   [("cpu_id", Val.vint 1), ("parent_node_id", Val.vint 1)]]

/-- C5 witness input: a two-row `sys.dm_os_schedulers` table. -/
def schedDbTwoRows : List DmSchedulersRow :=
  [⟨0, 0, 1, "VISIBLE ONLINE", 0⟩, ⟨1, 1, 1, "VISIBLE ONLINE", 1⟩]

/-- C2 concrete input: the first scheduler record lacks `parent_node_id`
but the second exposes it, so the set over ALL records is non-empty. -/
def schedRowsMixed : List Row :=
  [[("cpu_id", Val.vint 0)],
   [("cpu_id", Val.vint 1), ("parent_node_id", Val.vint 1)]]

/-! ## Theorems -/

theorem andThen_fst_err {a : CheckOut} (b : CheckOut) {e : PyErr}
    (h : a.err = some e) : a.andThen b = a := by
  unfold CheckOut.andThen
  rw [h]

theorem andThen_fst_ok {a : CheckOut} (b : CheckOut)
    (h : a.err = Option.none) : a.andThen b = ⟨a.lines ++ b.lines, b.err⟩ := by
  unfold CheckOut.andThen
  rw [h]

/-- C10: with an empty scheduler record set, `validate_memory_alignment`
raises an uncaught NameError for `memory_node_ids` (referenced at the
set-difference step without ever having been assigned) before emitting
any judgment line; the first conjunct states it for the record-level
check and any memory-node set, the second through the full method when
the scheduler query returns zero rows. -/
theorem C10_empty_scheduler_nameerror :
    (∀ memory_nodes : List Row,
      validate_memory_alignment_rows [] memory_nodes =
        ⟨[], some (PyErr.nameError "memory_node_ids")⟩) ∧
    (∀ (env : Env) (db : List DmMemoryNodesRow),
      env.schedDb = Except.ok [] → env.memNodesDb = Except.ok db →
      validate_memory_alignment env = ⟨[], some (PyErr.nameError "memory_node_ids")⟩) := by
  constructor
  · intro memory_nodes
    rfl
  · intro env db h1 h2
    simp [validate_memory_alignment, get_scheduler_layout, get_memory_nodes, query_dict,
      h1, h2, scheduler_layout_rows, sortSchedRows, validate_memory_alignment_rows]

/-- Witness for C10 at a concrete environment whose scheduler query
succeeds with zero rows. -/
theorem C10_empty_scheduler_nameerror_witness :
    validate_memory_alignment envSchedEmpty =
      ⟨[], some (PyErr.nameError "memory_node_ids")⟩ :=
  C10_empty_scheduler_nameerror.2 envSchedEmpty [] rfl rfl

/-- C2 (code bug): evaluating the embedded `validate_memory_alignment` at
concrete inputs shows it never performs the set-difference reporting the
spec describes.  With one scheduler record exposing `parent_node_id` and
no memory nodes it emits NOTHING (the `return` inside the loop fires on
the first iteration), while the specified behaviour reports node 0 as
having no memory; and when only a later record exposes the key, the
early-exit warn fires even though the parent-node set over all records is
non-empty. -/
theorem C2_memory_alignment_bug :
    validate_memory_alignment_rows schedRowsPnid [] = ⟨[], Option.none⟩ ∧
    memAlignmentSpecLines schedRowsPnid [] =
      ["⚠️ NUMA nodes with schedulers but no memory assigned:",
       " - Node 0",
       "✅ All memory nodes align with scheduler nodes."] ∧
    (validate_memory_alignment_rows schedRowsPnid []).lines ≠
      memAlignmentSpecLines schedRowsPnid [] ∧
    validate_memory_alignment_rows schedRowsMixed [] =
      ⟨["⚠️ NUMA layout cannot be fully validated (parent_node_id missing)."],
        Option.none⟩ ∧
    setOfVals (collectSchedNodeIds schedRowsMixed) ≠ [] := by
  refine ⟨rfl, rfl, ?_, rfl, ?_⟩ <;> decide

/-- C3 (code bug): with an offline scheduler record that is not the last
record, the embedded `validate_numa_layout` emits both ok lines - the
offline warning depends only on the final row because the `if` sits
outside the loop, and the balance warning is unreachable because the
per-node map is never populated - contradicting the claim that a warn is
emitted if and only if some record is offline. -/
theorem C3_numa_layout_bug :
    validate_numa_layout_rows schedRowsOfflineFirst =
      ⟨["✅ NUMA CPU distribution appears balanced.",
        "✅ All schedulers are online."], Option.none⟩ ∧
    (∃ r ∈ schedRowsOfflineFirst, rowGet r "is_online" = some (Val.vint 0)) ∧
    ¬ offlineClaimAt schedRowsOfflineFirst := by
  refine ⟨rfl, ?_, ?_⟩
  · exact ⟨[("cpu_id", Val.vint 0), ("is_online", Val.vint 0)], by decide, rfl⟩
  · intro h
    have := h.2 ⟨[("cpu_id", Val.vint 0), ("is_online", Val.vint 0)], by decide, rfl⟩
    exact absurd this (by decide)

/-- C1 (counterexample): a data-access failure in the scheduler-layout
query is NOT converted into an error judgment - it propagates out of
`run_all_diagnostics` uncaught from inside `validate_numa_layout`
(`query_dict` re-raises and the check has no try/except), so the
remaining checks never run and the closing line is never emitted. -/
theorem C1_counterexample :
    envSchedFail.schedDb = Except.error PyErr.dbError ∧
    (run_all_diagnostics envSchedFail).err = some PyErr.dbError ∧
    "\n✅ Diagnostics complete." ∉ (run_all_diagnostics envSchedFail).lines ∧
    ¬ (run_all_diagnostics envSchedFail).lines.any (fun l => pyIn "NUMA" l) = true := by
  refine ⟨rfl, ?_, ?_, ?_⟩ <;> decide

/-- C1 (amended): data-access failures are isolated only by the checks
whose whole body sits in try/except - `get_system_specs`,
`check_affinity_config`, `check_socket_layout`,
`detect_virtual_environment`, `check_virtual_hardware` and
`analyze_sql_workload` never let an exception escape (part one, for
every environment) and the run continues past their failures with error
lines in the report (part two, a concrete run where the system-specs and
workload queries fail yet the run completes).  The isolation claim fails
elsewhere: a scheduler-layout query failure propagates out of
`run_all_diagnostics` uncaught from inside `validate_numa_layout`,
aborting every later check (part three, for every environment), and a
midway memory-configuration fetch failure emits the error line but then
aborts the run with the uncaught KeyError of `validate_memory_config`
(part four, the environment of C6). -/
theorem C1_error_isolation_amended :
    (∀ env : Env,
      (get_system_specs env).err = Option.none ∧
      (check_affinity_config env).err = Option.none ∧
      (check_socket_layout env).err = Option.none ∧
      (detect_virtual_environment env).err = Option.none ∧
      (check_virtual_hardware env).err = Option.none ∧
      (analyze_sql_workload env).err = Option.none) ∧
    ((run_all_diagnostics envCaughtFail).err = Option.none ∧
     "❌ Error retrieving system hardware configuration." ∈
       (run_all_diagnostics envCaughtFail).lines ∧
     "❌ Error analyzing SQL workload." ∈ (run_all_diagnostics envCaughtFail).lines ∧
     "\n✅ Diagnostics complete." ∈ (run_all_diagnostics envCaughtFail).lines) ∧
    (∀ (env : Env) (e : PyErr), env.schedDb = Except.error e →
        (run_all_diagnostics env).err = some e) ∧
    ((run_all_diagnostics envMemPartial).err =
        some (PyErr.keyError "total_physical_memory_mb") ∧
     "❌ Unable to retrieve memory configuration." ∈
       (run_all_diagnostics envMemPartial).lines ∧
     "\n✅ Diagnostics complete." ∉ (run_all_diagnostics envMemPartial).lines) := by
  refine ⟨fun env => ⟨rfl, rfl, rfl, rfl, rfl, rfl⟩, ⟨?_, ?_, ?_, ?_⟩, ?_, ⟨?_, ?_, ?_⟩⟩
  · decide
  · decide
  · decide
  · decide
  · intro env e h
    have hs : get_scheduler_layout env = Except.error e := by
      simp [get_scheduler_layout, query_dict, h]
    simp [run_all_diagnostics, CheckOut.andThen, validate_numa_layout, hs, get_system_specs]
  · decide
  · decide
  · decide

/-- Witness for C1 (amended), discharging the propagation hypothesis at a
concrete environment. -/
theorem C1_error_isolation_witness :
    (run_all_diagnostics envSchedFail).err = some PyErr.dbError :=
  C1_error_isolation_amended.2.2.1 envSchedFail PyErr.dbError rfl

theorem collectSchedNodeIds_eq_nil {rows : List Row}
    (h : ∀ r ∈ rows, rowGet r "parent_node_id" = Option.none) :
    collectSchedNodeIds rows = [] := by
  induction rows with
  | nil => rfl
  | cons r rest ih =>
    unfold collectSchedNodeIds
    rw [List.filterMap_cons, h r (by simp)]
    simpa [collectSchedNodeIds] using ih (fun x hx => h x (by simp [hx]))

/-- C4: for scheduler record sets with uniform columns (every row exposes
`parent_node_id` or none does, which is what `query_dict` produces, since
all dicts of one result set share the same keys): more than one distinct
parent node gives a recommendation of `node_count * 2`; one distinct node
or the fallback gives 8; and the check always emits the three lines
stating the current value, the recommendation and the reason (preceded
only by the fallback notice when `parent_node_id` is unavailable). -/
theorem C4_maxdop_rule (current_value : Option Val) (schedulers : List Row)
    (hu : (∀ r ∈ schedulers, (rowGet r "parent_node_id").isSome = true) ∨
          (∀ r ∈ schedulers, rowGet r "parent_node_id" = Option.none)) :
    (1 < distinctPnidCount schedulers →
        maxdopRecommended schedulers = distinctPnidCount schedulers * 2) ∧
    (distinctPnidCount schedulers = 1 ∨ maxdopUsesPnid schedulers = false →
        maxdopRecommended schedulers = 8) ∧
    recommend_maxdop_lines current_value schedulers =
      (if maxdopUsesPnid schedulers then []
       else ["⚠️ Falling back to 1 NUMA node (parent_node_id unavailable)"]) ++
      ["🧠 Current maxDOP: " ++ pyStrOpt current_value,
       "✅ Recommended maxDOP: " ++ toString (maxdopRecommended schedulers),
       "📌 Reason: " ++ maxdopReason schedulers] := by
  refine ⟨?_, ?_, rfl⟩
  · intro hk
    cases schedulers with
    | nil =>
      exfalso
      have h0 : distinctPnidCount ([] : List Row) = 0 := by
        simp [distinctPnidCount, collectSchedNodeIds, setOfVals]
      omega
    | cons r rest =>
      rcases hu with hall | hnone
      · have hr : (rowGet r "parent_node_id").isSome = true := hall r (by simp)
        have hu2 : maxdopUsesPnid (r :: rest) = true := by
          simp [maxdopUsesPnid, hr]
        have hnc : maxdopNodeCount (r :: rest) = distinctPnidCount (r :: rest) := by
          simp [maxdopNodeCount, hu2]
        unfold maxdopRecommended
        rw [hnc, if_neg (by omega)]
      · exfalso
        have h0 : distinctPnidCount (r :: rest) = 0 := by
          simp [distinctPnidCount, collectSchedNodeIds_eq_nil hnone, setOfVals]
        omega
  · intro h
    cases hp : maxdopUsesPnid schedulers with
    | false => simp [maxdopRecommended, maxdopNodeCount, hp]
    | true =>
      rcases h with h1 | h2
      · simp [maxdopRecommended, maxdopNodeCount, hp, h1]
      · rw [hp] at h2
        exact absurd h2 (by simp)

/-- Witness for C4 at two records exposing two distinct parent nodes:
the recommendation is 4. -/
theorem C4_maxdop_witness : maxdopRecommended schedRowsTwoNodes = 4 := by
  have h := (C4_maxdop_rule (some (Val.vint 0)) schedRowsTwoNodes
    (Or.inl (by decide))).1 (by decide)
  rw [h]
  decide

theorem mem_insertSched {a x : DmSchedulersRow} {l : List DmSchedulersRow} :
    a ∈ insertSched x l ↔ a = x ∨ a ∈ l := by
  induction l with
  | nil => simp [insertSched]
  | cons y ys ih =>
    unfold insertSched
    by_cases h : x.scheduler_id ≤ y.scheduler_id
    · simp [h]
    · simp [h, ih]
      tauto

theorem mem_sortSchedRows {a : DmSchedulersRow} {l : List DmSchedulersRow} :
    a ∈ sortSchedRows l ↔ a ∈ l := by
  induction l with
  | nil => simp [sortSchedRows]
  | cons x xs ih => simp [sortSchedRows, mem_insertSched, ih]

theorem layout_keys (db : List DmSchedulersRow) :
    ∀ r ∈ scheduler_layout_rows db,
      r.map Prod.fst = ["scheduler_id", "cpu_id", "is_online", "status"] := by
  intro r hr
  unfold scheduler_layout_rows at hr
  rcases List.mem_map.mp hr with ⟨x, _, rfl⟩
  rfl

theorem layout_pnid_none (db : List DmSchedulersRow) :
    ∀ r ∈ scheduler_layout_rows db, rowGet r "parent_node_id" = Option.none := by
  intro r hr
  unfold scheduler_layout_rows at hr
  rcases List.mem_map.mp hr with ⟨x, _, rfl⟩
  rfl

/-- C5: every record returned by `get_scheduler_layout` carries exactly
the keys scheduler_id, cpu_id, is_online and status and never
`parent_node_id` (the SELECT list omits it); consequently
`recommend_maxdop` always takes the one-node fallback (warning line and
recommendation 8), and the `scheduler_node_ids` accumulation of
`validate_memory_alignment` stays empty, its early-exit warning firing on
every non-empty layout regardless of the actual NUMA topology. -/
theorem C5_scheduler_layout_keys (db : List DmSchedulersRow) :
    (∀ r ∈ scheduler_layout_rows db,
        r.map Prod.fst = ["scheduler_id", "cpu_id", "is_online", "status"]) ∧
    (∀ r ∈ scheduler_layout_rows db, rowGet r "parent_node_id" = Option.none) ∧
    maxdopUsesPnid (scheduler_layout_rows db) = false ∧
    maxdopRecommended (scheduler_layout_rows db) = 8 ∧
    (∀ current_value, recommend_maxdop_lines current_value (scheduler_layout_rows db) =
        ["⚠️ Falling back to 1 NUMA node (parent_node_id unavailable)",
         "🧠 Current maxDOP: " ++ pyStrOpt current_value,
         "✅ Recommended maxDOP: 8",
         "📌 Reason: Single NUMA node - general best practice"]) ∧
    (∀ memory_nodes : List Row, scheduler_layout_rows db ≠ [] →
        validate_memory_alignment_rows (scheduler_layout_rows db) memory_nodes =
          ⟨["⚠️ NUMA layout cannot be fully validated (parent_node_id missing)."],
            Option.none⟩) ∧
    collectSchedNodeIds (scheduler_layout_rows db) = [] := by
  have huse : maxdopUsesPnid (scheduler_layout_rows db) = false := by
    cases hL : scheduler_layout_rows db with
    | nil => rfl
    | cons r t =>
      have hr : r ∈ scheduler_layout_rows db := by
        rw [hL]
        exact List.mem_cons_self r t
      simp [maxdopUsesPnid, layout_pnid_none db r hr]
  have hcnt : maxdopNodeCount (scheduler_layout_rows db) = 1 := by
    simp [maxdopNodeCount, huse]
  have hrec : maxdopRecommended (scheduler_layout_rows db) = 8 := by
    simp [maxdopRecommended, hcnt]
  have hreason : maxdopReason (scheduler_layout_rows db) =
      "Single NUMA node - general best practice" := by
    simp [maxdopReason, hcnt]
  refine ⟨layout_keys db, layout_pnid_none db, huse, hrec, ?_, ?_, ?_⟩
  · intro current_value
    simp [recommend_maxdop_lines, huse, hrec, hreason]
    decide
  · intro memory_nodes hne
    cases hL : scheduler_layout_rows db with
    | nil => exact absurd hL hne
    | cons r t =>
      have hr : r ∈ scheduler_layout_rows db := by
        rw [hL]
        exact List.mem_cons_self r t
      simp [validate_memory_alignment_rows, layout_pnid_none db r hr]
  · exact collectSchedNodeIds_eq_nil (layout_pnid_none db)

/-- Witness for C5 at a concrete two-row scheduler table. -/
theorem C5_scheduler_layout_witness :
    validate_memory_alignment_rows (scheduler_layout_rows schedDbTwoRows) [] =
      ⟨["⚠️ NUMA layout cannot be fully validated (parent_node_id missing)."],
        Option.none⟩ :=
  (C5_scheduler_layout_keys schedDbTwoRows).2.2.2.2.2.1 [] (by decide)

/-- C6 (counterexample): when the physical-memory query fails after min
and max server memory were stored, the fetched configuration is missing
the total/available keys, yet `validate_memory_config` does not stop
cleanly: it starts the detail output and the first absent key raises an
uncaught KeyError. -/
theorem C6_counterexample :
    memCfgHasAllKeys (get_memory_config envMemPartial).2 = false ∧
    (validate_memory_config envMemPartial).err =
      some (PyErr.keyError "total_physical_memory_mb") ∧
    ¬ memConfigClaimAt envMemPartial := by
  refine ⟨rfl, rfl, ?_⟩
  intro h
  have := (h rfl).1
  exact absurd this (by decide)

/-- C6 (amended): a failure before anything is stored leaves the dict
empty, so the check emits the error line (from the fetch) and stops
cleanly; a failure midway leaves a partial dict and the check raises an
uncaught KeyError after the header; when all four values are present as
ints the OS-starvation rule fires iff max exceeds total and the ramp-up
rule fires iff min is below a quarter of max, evaluated independently. -/
theorem C6_memory_config_amended :
    (∀ (env : Env) (e : PyErr), env.memSetup = Except.error e →
        validate_memory_config env =
          ⟨["❌ Unable to retrieve memory configuration."], Option.none⟩) ∧
    (∀ (env : Env) (e : PyErr), env.memSetup = Except.ok () →
        env.memMinFetch = Except.error e →
        validate_memory_config env =
          ⟨["❌ Unable to retrieve memory configuration."], Option.none⟩) ∧
    (validate_memory_config envMemPartial =
      ⟨["❌ Unable to retrieve memory configuration.",
        "\n🔍 SQL Server Memory Configuration:"],
        some (PyErr.keyError "total_physical_memory_mb")⟩) ∧
    (∀ (env : Env) (mn mx t a : Int),
        env.memSetup = Except.ok () →
        env.memMinFetch = Except.ok (some (Val.vint mn)) →
        env.memMaxFetch = Except.ok (some (Val.vint mx)) →
        env.memSysFetch = Except.ok (some (t, a)) →
        validate_memory_config env =
          ⟨["\n🔍 SQL Server Memory Configuration:",
            " - Total Physical RAM: " ++ toString (Int.tdiv t 1024) ++ " MB",
            " - Available RAM: " ++ toString (Int.tdiv a 1024) ++ " MB",
            " - SQL Min Memory: " ++ toString mn ++ " MB",
            " - SQL Max Memory: " ++ toString mx ++ " MB",
            (if Int.tdiv t 1024 < mx then
               "⚠️ SQL Max Memory exceeds physical RAM. Risk of OS starvation."
             else "✅ SQL Max Memory fits within physical RAM."),
            (if 4 * mn < mx then
               "⚠️ SQL Min Memory is set very low compared to Max. Could delay memory ramp-up."
             else "✅ SQL Min/Max memory ratio looks reasonable.")],
            Option.none⟩) := by
  refine ⟨?_, ?_, rfl, ?_⟩
  · intro env e h
    simp [validate_memory_config, get_memory_config, h]
  · intro env e h1 h2
    simp [validate_memory_config, get_memory_config, h1, h2]
  · intro env mn mx t a h1 h2 h3 h4
    have hg : get_memory_config env =
        ([], [("min_server_memory_mb", Val.vint mn),
              ("max_server_memory_mb", Val.vint mx),
              ("total_physical_memory_mb", Val.vint (Int.tdiv t 1024)),
              ("available_physical_memory_mb", Val.vint (Int.tdiv a 1024))]) := by
      simp [get_memory_config, h1, h2, h3, h4, fetchedVal]
    simp [validate_memory_config, hg, rowGet, valGtE, valLtQuarterE,
      Val.pyStr, decide_eq_true_eq]

/-- Witness for C6 (amended) at a concrete benign environment: max fits
in RAM (ok) while min is below a quarter of max (warn), the two rules
independent. -/
theorem C6_memory_config_witness :
    validate_memory_config benignEnv =
      ⟨["\n🔍 SQL Server Memory Configuration:",
        " - Total Physical RAM: 2000 MB",
        " - Available RAM: 1000 MB",
        " - SQL Min Memory: 100 MB",
        " - SQL Max Memory: 1024 MB",
        "✅ SQL Max Memory fits within physical RAM.",
        "⚠️ SQL Min Memory is set very low compared to Max. Could delay memory ramp-up."],
        Option.none⟩ := by
  have h := C6_memory_config_amended.2.2.2 benignEnv 100 1024 2048000 1024000
    rfl rfl rfl rfl
  rw [h]
  decide

theorem strData_append (s t : String) : (s ++ t).data = s.data ++ t.data := rfl

theorem strMk_data (s : String) : String.mk s.data = s := rfl

theorem splitlinesL_nl (rest : List Char) :
    splitlinesL ('\n' :: rest) = [] :: splitlinesL rest := by
  cases rest <;> rfl

theorem splitlinesL_break_free (m rest : List Char)
    (h : ∀ c ∈ m, isLineBreak c = false) :
    splitlinesL (m ++ '\n' :: rest) = m :: splitlinesL rest := by
  induction m with
  | nil => exact splitlinesL_nl rest
  | cons c cs ih =>
    have hc : isLineBreak c = false := h c (by simp)
    have hcr : c ≠ '\r' := by
      intro he
      rw [he] at hc
      exact absurd hc (by decide)
    cases cs with
    | nil =>
      simp only [List.nil_append, List.cons_append, splitlinesL]
      rw [if_neg (fun hp => hcr hp.1), hc]
      simp only [Bool.false_eq_true, if_false, splitlinesL_nl]
    | cons d ds =>
      have hd : isLineBreak d = false := h d (by simp)
      have hdn : d ≠ '\n' := by
        intro he
        rw [he] at hd
        exact absurd hd (by decide)
      have ih2 : splitlinesL ((d :: ds) ++ '\n' :: rest) = (d :: ds) :: splitlinesL rest :=
        ih (fun x hx => h x (by simp [hx]))
      simp only [List.cons_append] at ih2 ⊢
      simp only [splitlinesL]
      rw [if_neg (fun hp => hdn hp.2), hc]
      simp only [Bool.false_eq_true, if_false]
      rw [ih2]

theorem recordAll_buffer_data (msgs : List String) (st : ReportLogger) :
    (msgs.foldl ReportLogger.write st).buffer.data =
      st.buffer.data ++ (msgs.map (fun m => m.data ++ ['\n'])).flatten := by
  induction msgs generalizing st with
  | nil => simp
  | cons m ms ih =>
    simp only [List.foldl_cons, List.map_cons, List.flatten_cons]
    rw [ih]
    simp [ReportLogger.write, strData_append, List.append_assoc]

theorem splitlines_flatten (msgs : List String)
    (h : ∀ m ∈ msgs, ∀ c ∈ m.data, isLineBreak c = false) :
    splitlinesL ((msgs.map (fun m => m.data ++ ['\n'])).flatten) =
      msgs.map String.data := by
  induction msgs with
  | nil => rfl
  | cons m ms ih =>
    simp only [List.map_cons, List.flatten_cons, List.append_assoc, List.singleton_append]
    rw [splitlinesL_break_free m.data _ (h m (by simp)),
      ih (fun x hx => h x (by simp [hx]))]

/-- C7 (counterexample): a message containing an embedded line boundary
is split by `splitlines` in `export_json`, so the exported line list is
NOT the recorded message list.  The checks emit such messages constantly
(headers starting with a newline), and raw probe output or SQL text can
carry a bare carriage return, which also splits. -/
theorem C7_counterexample :
    export_json_report (recordAll ["\n🔍 SQL Server Memory Configuration:"]) =
      ["", "🔍 SQL Server Memory Configuration:"] ∧
    export_json_report (recordAll ["\n🔍 SQL Server Memory Configuration:"]) ≠
      ["\n🔍 SQL Server Memory Configuration:"] ∧
    export_json_report (recordAll ["a\rb"]) = ["a", "b"] := by
  refine ⟨rfl, by decide, rfl⟩

/-- C7 (amended): the structured export round-trips the recorded
messages in order and content exactly when no recorded message contains
a line-boundary character (newline, carriage return, vertical tab, form
feed, the separator controls 0x1c-0x1e, next line 0x85, or the Unicode
line and paragraph separators); a message with an embedded boundary is
split there in the exported list. -/
theorem C7_roundtrip_amended (msgs : List String)
    (h : ∀ m ∈ msgs, ∀ c ∈ m.data, isLineBreak c = false) :
    export_json_report (recordAll msgs) = msgs := by
  unfold export_json_report pySplitlines recordAll
  have hb : (msgs.foldl ReportLogger.write ⟨""⟩).buffer.data =
      (msgs.map (fun m => m.data ++ ['\n'])).flatten := by
    simpa using recordAll_buffer_data msgs ⟨""⟩
  rw [hb, splitlines_flatten msgs h, List.map_map]
  exact List.map_id msgs

/-- Witness for C7 (amended) at two newline-free messages. -/
theorem C7_roundtrip_witness :
    export_json_report (recordAll ["alpha", "beta"]) = ["alpha", "beta"] :=
  C7_roundtrip_amended ["alpha", "beta"] (by decide)

/-- C8: the summary is non-mutating (the logger state, and hence any
later text export, is unchanged) and idempotent (a second run returns
the same counts and highlights); successes and warnings are counted by
independent marker-substring filters over the buffered lines, with the
first five warnings in log order highlighted; the two classes need not
partition the lines - the closing conjuncts count a single line carrying
both markers once in EACH class. -/
theorem C8_summary_properties :
    (∀ st : ReportLogger,
      (print_summary st).2 = st ∧
      (print_summary ((print_summary st).2)).1 = (print_summary st).1 ∧
      export_text ((print_summary st).2) = export_text st ∧
      (print_summary st).1.1 =
        ((pySplitlines st.buffer).filter (fun l => pyIn "✅" l)).length ∧
      (print_summary st).1.2.1 =
        ((pySplitlines st.buffer).filter (fun l => pyIn "⚠️" l || pyIn "❌" l)).length ∧
      (print_summary st).1.2.2 =
        ((pySplitlines st.buffer).filter (fun l => pyIn "⚠️" l || pyIn "❌" l)).take 5) ∧
    (print_summary (recordAll ["✅ ok line with ⚠️ marker"])).1.1 = 1 ∧
    (print_summary (recordAll ["✅ ok line with ⚠️ marker"])).1.2.1 = 1 := by
  refine ⟨fun st => ⟨rfl, rfl, rfl, rfl, rfl, rfl⟩, ?_, ?_⟩ <;> decide

/-- C9: virtualization classification is ordered substring matching with
the first match winning, in source order VMware, then Hyper-V or Virtual
Machine, then KVM or QEMU, then the Azure phrasing, and Bare Metal when
nothing matches; in particular a signature containing both VMware and
Hyper-V classifies as VMware. -/
theorem C9_virtualization_order (s : String) :
    (pyIn "VMware" s = true → classifyVirtualization s = "VMware") ∧
    (pyIn "VMware" s = false →
      (pyIn "Hyper-V" s = true ∨ pyIn "Virtual Machine" s = true) →
      classifyVirtualization s = "Hyper-V") ∧
    (pyIn "VMware" s = false → pyIn "Hyper-V" s = false →
      pyIn "Virtual Machine" s = false →
      (pyIn "KVM" s = true ∨ pyIn "QEMU" s = true) →
      classifyVirtualization s = "KVM/QEMU") ∧
    (pyIn "VMware" s = false → pyIn "Hyper-V" s = false →
      pyIn "Virtual Machine" s = false → pyIn "KVM" s = false →
      pyIn "QEMU" s = false → pyIn "Microsoft Corporation Virtual" s = true →
      classifyVirtualization s = "Azure (Hyper-V core)") ∧
    (pyIn "VMware" s = false → pyIn "Hyper-V" s = false →
      pyIn "Virtual Machine" s = false → pyIn "KVM" s = false →
      pyIn "QEMU" s = false → pyIn "Microsoft Corporation Virtual" s = false →
      classifyVirtualization s = "Bare Metal") ∧
    classifyVirtualization "Manufacturer: VMware, Inc. Hypervisor: Hyper-V" =
      "VMware" := by
  refine ⟨?_, ?_, ?_, ?_, ?_, by decide⟩
  · intro h1
    simp [classifyVirtualization, h1]
  · intro h1 h2
    rcases h2 with h2 | h2 <;> simp [classifyVirtualization, h1, h2]
  · intro h1 h2 h3 h4
    rcases h4 with h4 | h4 <;> simp [classifyVirtualization, h1, h2, h3, h4]
  · intro h1 h2 h3 h4 h5 h6
    simp [classifyVirtualization, h1, h2, h3, h4, h5, h6]
  · intro h1 h2 h3 h4 h5 h6
    simp [classifyVirtualization, h1, h2, h3, h4, h5, h6]

/-- Witness for C9: the generic Hyper-V branch fires when VMware is
absent. -/
theorem C9_virtualization_witness :
    classifyVirtualization "Hyper-V Virtual Machine" = "Hyper-V" :=
  (C9_virtualization_order "Hyper-V Virtual Machine").2.1 (by decide) (Or.inl (by decide))
